import Mathlib

/-!
Verification of the update-channel decision logic of the rust-analyzer
VSCode extension (files `ensure_proper_extension_version.ts` and
`config.ts`).

The development has three parts:

1. A model of the ECMAScript `Date` semantics used by `diffInHours`:
   proleptic-Gregorian civil-date conversions (the `jsYear`/`jsMonth1`/
   `jsDay` functions model `getFullYear`/`getMonth`/`getDate` applied to
   the local-time day number, and `daysFromCivil` together with the
   two-digit-year adjustment models `Date.UTC`).

2. A model of version-tag parsing (`Config.extensionReleaseTag` and
   `Config.installedExtensionUpdateChannel`), over `List Char`.

3. A trace-based model of the orchestrator
   (`ensureProperExtensionVersion`, `askToDownloadProperExtensionVersion`,
   `tryDownloadNightlyExtension`): every externally visible action is
   recorded as an `Effect`, the run terminates with an `Outcome`, and all
   external inputs (configuration values, persisted storage reads, user
   responses, network and file-system results) are supplied by an `Env`
   record.  The `notReentrant` wrapper from `util.ts` is not part of the
   reviewed sources and is modelled from the specification.
-/

/-! ### Civil calendar arithmetic (model of ECMAScript Date field semantics)

The functions below follow the standard proleptic-Gregorian conversion
between day numbers (days since 1970-01-01) and civil triples
(year, month 1..12, day 1..31), which is exactly the calendar used by
ECMAScript `Date`.  All divisions are by positive constants, and `Int`
division in Lean rounds toward negative infinity for positive divisors,
matching the mathematical floor used in the conversion.
-/

def eraOf (z : Int) : Int := (z + 719468) / 146097

def doeOf (z : Int) : Int := z + 719468 - eraOf z * 146097

def yoeOfDoe (doe : Int) : Int := (doe - doe / 1460 + doe / 36524 - doe / 146096) / 365

def doyStartOfYoe (yoe : Int) : Int := 365 * yoe + yoe / 4 - yoe / 100

def doyOfDoe (doe : Int) : Int := doe - doyStartOfYoe (yoeOfDoe doe)

def mpOfDoe (doe : Int) : Int := (5 * doyOfDoe doe + 2) / 153

def dayOfDoe (doe : Int) : Int := doyOfDoe doe - (153 * mpOfDoe doe + 2) / 5 + 1

def monthOfDoe (doe : Int) : Int := if mpOfDoe doe < 10 then mpOfDoe doe + 3 else mpOfDoe doe - 9

/-- Year of the civil date of day number `z` (model of `getFullYear` on day numbers). -/
def jsYear (z : Int) : Int :=
  yoeOfDoe (doeOf z) + eraOf z * 400 + (if monthOfDoe (doeOf z) ≤ 2 then 1 else 0)

/-- One-based month (1..12) of the civil date of day number `z`. -/
def jsMonth1 (z : Int) : Int := monthOfDoe (doeOf z)

/-- Day of month (1..31) of the civil date of day number `z` (model of `getDate`). -/
def jsDay (z : Int) : Int := dayOfDoe (doeOf z)

def yShift (y m : Int) : Int := y - (if m ≤ 2 then 1 else 0)

def eraOfY (y' : Int) : Int := y' / 400

def yoeOfY (y' : Int) : Int := y' - eraOfY y' * 400

def doyOfMD (m d : Int) : Int := (153 * (m + (if 2 < m then -3 else 9)) + 2) / 5 + d - 1

def doeOfYoeDoy (yoe doy : Int) : Int := yoe * 365 + yoe / 4 - yoe / 100 + doy

/-- Day number of the civil date (year `y`, month `m` 1..12, day `d`). -/
def daysFromCivil (y m d : Int) : Int :=
  eraOfY (yShift y m) * 146097 + doeOfYoeDoy (yoeOfY (yShift y m)) (doyOfMD m d) - 719468

/-- ECMAScript `Date.UTC` maps a year argument in 0..99 to 1900 + that year. -/
def jsYearAdjust (y : Int) : Int := if 0 ≤ y ∧ y ≤ 99 then y + 1900 else y

/-- Model of `Date.UTC(y, m0, d)` (month `m0` zero-based, as produced by `getMonth`):
the millisecond timestamp of midnight UTC of the given civil date. -/
def jsDateUTCms (y m0 d : Int) : Int := daysFromCivil (jsYearAdjust y) (m0 + 1) d * 86400000

/-- A JavaScript `Date` value: its epoch timestamp in milliseconds, together
with the local-timezone offset (in milliseconds) in force at that instant. -/
structure JSDate where
  epochMs : Int
  tzOffsetMs : Int
deriving DecidableEq

/-- Local day number (days since 1970-01-01 of the local calendar date). -/
def localDays (a : JSDate) : Int := (a.epochMs + a.tzOffsetMs) / 86400000

/-- Model of `Date.prototype.getFullYear` (local-time year). -/
def getFullYear (a : JSDate) : Int := jsYear (localDays a)

/-- Model of `Date.prototype.getMonth` (local-time month, zero-based). -/
def getMonth (a : JSDate) : Int := jsMonth1 (localDays a) - 1

/-- Model of `Date.prototype.getDate` (local-time day of month). -/
def getDate (a : JSDate) : Int := jsDay (localDays a)

/-- Model of `Date.prototype.getTime`. -/
def getTime (a : JSDate) : Int := a.epochMs

/-- Model of `diffInHours` from `ensure_proper_extension_version.ts`:
discards the time of day by rebuilding each argument from its local
calendar-date fields via `Date.UTC`, then divides the difference by an
hour in milliseconds.  The division is exact because both rebuilt values
are multiples of a full day. -/
def diffInHours (a b : JSDate) : Int :=
  (jsDateUTCms (getFullYear a) (getMonth a) (getDate a)
    - jsDateUTCms (getFullYear b) (getMonth b) (getDate b)) / (1000 * 60 * 60)

/-- UTC day number of a timestamp; two timestamps fall on the same UTC
calendar date exactly when their UTC day numbers agree.  This is the
spec-side notion used by the claim about `diffInHours`. -/
def utcDayIndex (a : JSDate) : Int := a.epochMs / 86400000

/-! ### Version-tag parsing (`Config.extensionReleaseTag`,
`Config.installedExtensionUpdateChannel`) -/

/-- Strings are modelled as lists of characters. -/
abbrev Str := List Char

/-- The literal `NIGHTLY_TAG` from `config.ts`. -/
def NIGHTLY_TAG : Str := ("nightly").data

/-- The two update channels of the `UpdatesChannel` const enum. -/
inductive UpdatesChannel where
  | stable
  | nightly
deriving DecidableEq

/-- Model of matching `packageJsonVersion` against the anchored regular
expression `^\d+\.\d+\.(\d\x7b4\x7d)(\d\x7b2\x7d)(\d\x7b2\x7d)` and
extracting the three capture groups.  The greedy `\d+` runs are maximal
digit runs; a maximal run followed by anything but `.` makes the whole
match fail, which coincides with backtracking semantics because a shorter
run would leave a digit where `\.` must match. -/
def matchRealVersion (s : Str) : Option (Str × Str × Str) :=
  if s.takeWhile Char.isDigit = [] then none else
  match s.dropWhile Char.isDigit with
  | [] => none
  | c1 :: r2 =>
    if c1 = '.' then
      if r2.takeWhile Char.isDigit = [] then none else
      match r2.dropWhile Char.isDigit with
      | [] => none
      | c2 :: r4 =>
        if c2 = '.' then
          if (r4.take 8).length = 8 ∧ (r4.take 8).all Char.isDigit = true then
            some (r4.take 4, (r4.drop 4).take 2, (r4.drop 6).take 2)
          else none
        else none
    else none

/-- Model of `Config.extensionReleaseTag`: `nightly` for a version ending in
the nightly marker, otherwise `YYYY-MM-DD` extracted from the version.
`none` models the TypeError thrown by the non-null assertion when the
regular expression does not match. -/
def extensionReleaseTag (packageJsonVersion : Str) : Option Str :=
  if NIGHTLY_TAG.isSuffixOf packageJsonVersion then some NIGHTLY_TAG
  else
    match matchRealVersion packageJsonVersion with
    | some (yyyy, mm, dd) => some (yyyy ++ ('-' :: (mm ++ ('-' :: dd))))
    | none => none

/-- Model of `Config.installedExtensionUpdateChannel`. -/
def installedExtensionUpdateChannel (extensionReleaseTagValue : Str) : UpdatesChannel :=
  if extensionReleaseTagValue = NIGHTLY_TAG then UpdatesChannel.nightly else UpdatesChannel.stable

/-! ### Orchestrator data model -/

/-- Release metadata fetched from GitHub (`ArtifactReleaseInfo`); only the
release date is consumed by the reviewed code. -/
structure ArtifactReleaseInfo where
  releaseDate : JSDate
deriving DecidableEq

/-- A GitHub-release artifact source (`ArtifactSource.GithubRelease`). -/
structure GithubRelease where
  file : Str
  tag : Str
  dir : Str
  repoName : Str
  repoOwner : Str
deriving DecidableEq

/-- An artifact source (`ArtifactSource`): an explicit user-supplied server
path, or a GitHub release. -/
inductive ArtifactSource where
  | explicitPath (path : Str)
  | githubRelease (release : GithubRelease)
deriving DecidableEq

/-- Externally visible actions of one orchestrator run, in order. -/
inductive Effect where
  | setReleaseDate (date : Option JSDate)
  | infoPrompt (reason : Str) (channelWord : Str)
  | reinstallExtension (extensionId : Str)
  | reloadWindow
  | fetchReleaseInfo (repoName : Str) (file : Str) (tag : Str)
  | downloadArtifact (file : Str) (dir : Str)
  | installVsix (path : Str)
  | unlinkFile (path : Str)
  | showError (message : Str)
  | showInfo (message : Str)
  | logDownloadError (artifactName : Str) (repoName : Str)
deriving DecidableEq

/-- How a run of the orchestrator ends: a normal return, a window reload
(the process is replaced and the call never returns), or a thrown error. -/
inductive Outcome where
  | ret
  | restarted
  | threw
deriving DecidableEq

/-- How the `try` block of `tryDownloadNightlyExtension` ends. -/
inductive TryResult where
  | finished
  | restartedT
  | raised
deriving DecidableEq

deriving instance DecidableEq for Except

/-- All external inputs consumed by one orchestrator run: configuration
values, persisted-storage reads, the user response, and the results of the
network and file-system operations. -/
structure Env where
  raLspServerDebug : Option Str
  serverPath : Option Str
  prebuiltServerFileName : Option Str
  extensionReleaseTag : Str
  updatesChannel : UpdatesChannel
  askBeforeDownload : Bool
  userAcceptsDownload : Bool
  installedNightlyExtensionReleaseDate : Option JSDate
  rereadNightlyExtensionReleaseDate : Option JSDate
  now : JSDate
  globalStoragePath : Str
  homedir : Str
  fetchResult : Except Unit ArtifactReleaseInfo
  downloadResult : Except Unit Unit
  installResult : Except Unit Unit
  setDateResult : Except Unit Unit
  unlinkResult : Except Unit Unit
  inFlight : Bool

/-- The constant `HEURISTIC_NIGHTLY_RELEASE_PERIOD_IN_HOURS`. -/
def HEURISTIC_NIGHTLY_RELEASE_PERIOD_IN_HOURS : Int := 25

/-- The constant `Config.extensionId`. -/
def extensionId : Str := ("matklad.rust-analyzer").data

/-- Model of `Config.replaceTildeWithHomeDir`. -/
def replaceTildeWithHomeDir (homedir path : Str) : Str :=
  match path with
  | '~' :: '/' :: rest => homedir ++ '/' :: rest
  | _ => path

/-- Model of `Config.createGithubReleaseSource`. -/
def createGithubReleaseSource (env : Env) (file tag : Str) : GithubRelease :=
  { file := file
    tag := tag
    dir := env.globalStoragePath
    repoName := ("rust-analyzer").data
    repoOwner := ("rust-analyzer").data }

/-- Model of `Config.serverSource`.  `RA_LSP_DEBUG ?? this.serverPath` keeps
an empty-string debug value, and an empty string is falsy, falling through
to the prebuilt-binary source. -/
def serverSource (env : Env) : Option ArtifactSource :=
  match (match env.raLspServerDebug with
         | some s => some s
         | none => env.serverPath) with
  | some s =>
    if s = [] then
      match env.prebuiltServerFileName with
      | none => none
      | some file =>
        some (ArtifactSource.githubRelease (createGithubReleaseSource env file env.extensionReleaseTag))
    else some (ArtifactSource.explicitPath (replaceTildeWithHomeDir env.homedir s))
  | none =>
    match env.prebuiltServerFileName with
    | none => none
    | some file =>
      some (ArtifactSource.githubRelease (createGithubReleaseSource env file env.extensionReleaseTag))

/-- True exactly when the server source is an explicit user-supplied path. -/
def isExplicitPathSource : Option ArtifactSource → Bool
  | some (ArtifactSource.explicitPath _) => true
  | _ => false

/-- Model of `Config.nightlyVsixSource`. -/
def nightlyVsixSource (env : Env) : GithubRelease :=
  createGithubReleaseSource env ("rust-analyzer.vsix").data NIGHTLY_TAG

/-- Model of `path.join(vsixSource.dir, vsixSource.file)`. -/
def pathJoin (dir file : Str) : Str := dir ++ '/' :: file

/-- The reason string passed on the staleness path. -/
def outdatedReason : Str := ("The installed nightly version is most likely outdated. ").data

/-- The error notification shown when the persisted nightly release date is
missing (apostrophes of the original wording elided). -/
def nightlyDateMissingMsg : Str :=
  ("Nightly release date must have been set during the installation. " ++
   "Did you download and install the nightly .vsix package manually?").data

/-- The informational message shown when the fetched nightly is not newer
than the installed one (apostrophes and emoji of the original elided). -/
def nightlyUpToDateMsg : Str :=
  ("Whoops, it appears that your nightly version is up-to-date. " ++
   "There might be some problems with the upcomming nightly release " ++
   "or you traveled too far into the future. Sorry for that!").data

/-- Model of `askToDownloadProperExtensionVersion`: no prompt and an
affirmative result when `updates.askBeforeDownload` is off; otherwise a
prompt whose wording names the desired channel, answered by the user. -/
def askToDownloadProperExtensionVersion (env : Env) (reason : Str) : List Effect × Bool :=
  if env.askBeforeDownload then
    ([Effect.infoPrompt reason
        (match env.updatesChannel with
         | UpdatesChannel.stable => ("stable").data
         | UpdatesChannel.nightly => ("latest nightly").data)],
     env.userAcceptsDownload)
  else ([], true)

/-- The default `shouldDownload` guard of `tryDownloadNightlyExtension`. -/
def defaultShouldDownload : ArtifactReleaseInfo → List Effect × Except Unit Bool :=
  fun _ => ([], Except.ok true)

/-- The `shouldDownload` closure supplied on the Nightly-to-Nightly
staleness path: assert that no other process advanced the persisted
release date (a failed assertion throws), then refuse the download with an
informational message when the fetched release date equals the captured
one. -/
def stalenessShouldDownload (currentExtReleaseDate : JSDate) (env : Env)
    (releaseInfo : ArtifactReleaseInfo) : List Effect × Except Unit Bool :=
  match env.rereadNightlyExtensionReleaseDate with
  | none => ([], Except.error ())
  | some reread =>
    if getTime currentExtReleaseDate = getTime reread then
      if getTime releaseInfo.releaseDate = getTime currentExtReleaseDate then
        ([Effect.showInfo nightlyUpToDateMsg], Except.ok false)
      else ([], Except.ok true)
    else ([], Except.error ())

/-- The `try` block of `tryDownloadNightlyExtension`: fetch release info,
consult the guard, download, install, persist the release date, delete the
.vsix, reload the window.  Each external operation is recorded before its
result decides whether the step raised. -/
def tryBlock (env : Env) (shouldDownload : ArtifactReleaseInfo → List Effect × Except Unit Bool) :
    List Effect × TryResult :=
  let src := nightlyVsixSource env
  let fetchE := Effect.fetchReleaseInfo src.repoName src.file src.tag
  match env.fetchResult with
  | Except.error _ => ([fetchE], TryResult.raised)
  | Except.ok releaseInfo =>
    match shouldDownload releaseInfo with
    | (guardE, Except.error _) => (fetchE :: guardE, TryResult.raised)
    | (guardE, Except.ok false) => (fetchE :: guardE, TryResult.finished)
    | (guardE, Except.ok true) =>
      let downE := Effect.downloadArtifact src.file src.dir
      match env.downloadResult with
      | Except.error _ => (fetchE :: guardE ++ [downE], TryResult.raised)
      | Except.ok _ =>
        let vsixPath := pathJoin src.dir src.file
        match env.installResult with
        | Except.error _ => (fetchE :: guardE ++ [downE, Effect.installVsix vsixPath], TryResult.raised)
        | Except.ok _ =>
          match env.setDateResult with
          | Except.error _ =>
            (fetchE :: guardE ++ [downE, Effect.installVsix vsixPath,
              Effect.setReleaseDate (some releaseInfo.releaseDate)], TryResult.raised)
          | Except.ok _ =>
            match env.unlinkResult with
            | Except.error _ =>
              (fetchE :: guardE ++ [downE, Effect.installVsix vsixPath,
                Effect.setReleaseDate (some releaseInfo.releaseDate),
                Effect.unlinkFile vsixPath], TryResult.raised)
            | Except.ok _ =>
              (fetchE :: guardE ++ [downE, Effect.installVsix vsixPath,
                Effect.setReleaseDate (some releaseInfo.releaseDate),
                Effect.unlinkFile vsixPath, Effect.reloadWindow], TryResult.restartedT)

/-- Modelled from the spec: the `notReentrant` wrapper from `util.ts` is not
among the reviewed sources.  Per the specification, a guarded asynchronous
procedure rejects (no-ops) a second invocation while one is already in
flight in the same process, and otherwise runs its body. -/
def notReentrant (inFlight : Bool) (body : List Effect × Outcome) : List Effect × Outcome :=
  if inFlight then ([], Outcome.ret) else body

/-- Model of `tryDownloadNightlyExtension`: the re-entrancy-guarded try
block; any raise inside it is caught at this boundary and logged with the
artifact designator and repository name, and the call returns normally. -/
def tryDownloadNightlyExtension (env : Env)
    (shouldDownload : ArtifactReleaseInfo → List Effect × Except Unit Bool) :
    List Effect × Outcome :=
  notReentrant env.inFlight
    (match tryBlock env shouldDownload with
     | (trace, TryResult.raised) =>
       (trace ++ [Effect.logDownloadError ("nightly extension").data (nightlyVsixSource env).repoName],
        Outcome.ret)
     | (trace, TryResult.finished) => (trace, Outcome.ret)
     | (trace, TryResult.restartedT) => (trace, Outcome.restarted))

/-- The body of `ensureProperExtensionVersion` after its explicit-path entry
guard. -/
def ensureProperExtensionVersionBody (env : Env) : List Effect × Outcome :=
  let currentUpdChannel := installedExtensionUpdateChannel env.extensionReleaseTag
  let desiredUpdChannel := env.updatesChannel
  let pre : List Effect :=
    if currentUpdChannel = UpdatesChannel.stable then [Effect.setReleaseDate none] else []
  if desiredUpdChannel = UpdatesChannel.stable then
    if currentUpdChannel = UpdatesChannel.stable then (pre, Outcome.ret)
    else
      match askToDownloadProperExtensionVersion env [] with
      | (askE, false) => (pre ++ askE, Outcome.ret)
      | (askE, true) =>
        (pre ++ askE ++ [Effect.reinstallExtension extensionId, Effect.reloadWindow],
         Outcome.restarted)
  else
    if currentUpdChannel = UpdatesChannel.stable then
      match askToDownloadProperExtensionVersion env [] with
      | (askE, false) => (pre ++ askE, Outcome.ret)
      | (askE, true) =>
        match tryDownloadNightlyExtension env defaultShouldDownload with
        | (dlE, outcome) => (pre ++ askE ++ dlE, outcome)
    else
      match env.installedNightlyExtensionReleaseDate with
      | none => (pre ++ [Effect.showError nightlyDateMissingMsg], Outcome.threw)
      | some currentExtReleaseDate =>
        if diffInHours currentExtReleaseDate env.now <
            HEURISTIC_NIGHTLY_RELEASE_PERIOD_IN_HOURS then
          (pre, Outcome.ret)
        else
          match askToDownloadProperExtensionVersion env outdatedReason with
          | (askE, false) => (pre ++ askE, Outcome.ret)
          | (askE, true) =>
            match tryDownloadNightlyExtension env
                (stalenessShouldDownload currentExtReleaseDate env) with
            | (dlE, outcome) => (pre ++ askE ++ dlE, outcome)

/-- Model of `ensureProperExtensionVersion`: a server built from sources
(explicit path) opts out of all update management; otherwise run the
channel decision procedure. -/
def ensureProperExtensionVersion (env : Env) : List Effect × Outcome :=
  match serverSource env with
  | some (ArtifactSource.explicitPath _) => ([], Outcome.ret)
  | _ => ensureProperExtensionVersionBody env

/-! ### Concrete inputs used by counterexamples and witnesses -/

/-- 1970-01-01T00:00Z, UTC locale. -/
def dateJan1 : JSDate := { epochMs := 0, tzOffsetMs := 0 }

/-- 1970-01-02T00:00Z, UTC locale. -/
def dateJan2 : JSDate := { epochMs := 86400000, tzOffsetMs := 0 }

/-- 1970-01-03T00:00Z, UTC locale. -/
def dateJan3 : JSDate := { epochMs := 2 * 86400000, tzOffsetMs := 0 }

/-- 1970-01-05T00:00Z, UTC locale. -/
def dateJan5 : JSDate := { epochMs := 4 * 86400000, tzOffsetMs := 0 }

/-- 1970-01-01T00:00Z seen from a UTC+14 locale (local date 1970-01-01). -/
def dateJan1Plus14 : JSDate := { epochMs := 0, tzOffsetMs := 50400000 }

/-- 1970-01-01T23:00Z seen from a UTC+14 locale (local date 1970-01-02,
but still the same UTC calendar date as `dateJan1Plus14`). -/
def dateJan1LatePlus14 : JSDate := { epochMs := 82800000, tzOffsetMs := 50400000 }

/-- A fully populated environment: nightly build installed, nightly channel
desired, all external operations succeeding.  Witness environments are
derived from it by updating fields. -/
def baseEnv : Env :=
  { raLspServerDebug := none
    serverPath := none
    prebuiltServerFileName := some (("rust-analyzer-linux").data)
    extensionReleaseTag := NIGHTLY_TAG
    updatesChannel := UpdatesChannel.nightly
    askBeforeDownload := true
    userAcceptsDownload := true
    installedNightlyExtensionReleaseDate := some dateJan1
    rereadNightlyExtensionReleaseDate := some dateJan1
    now := dateJan5
    globalStoragePath := ("/globalStorage").data
    homedir := ("/home/user").data
    fetchResult := Except.ok { releaseDate := dateJan5 }
    downloadResult := Except.ok ()
    installResult := Except.ok ()
    setDateResult := Except.ok ()
    unlinkResult := Except.ok ()
    inFlight := false }

/-- Recognizer for the user-confirmation prompt effect. -/
def isInfoPrompt : Effect → Bool
  | Effect.infoPrompt _ _ => true
  | _ => false

/-! ### Calendar lemmas: `daysFromCivil` inverts the civil-date fields -/

theorem doe_bounds (z : Int) : 0 ≤ doeOf z ∧ doeOf z < 146097 := by
  unfold doeOf eraOf; omega

theorem yoe_bounds {doe : Int} (h1 : 0 ≤ doe) (h2 : doe < 146097) :
    0 ≤ yoeOfDoe doe ∧ yoeOfDoe doe ≤ 399 := by
  unfold yoeOfDoe; omega

set_option maxHeartbeats 4000000 in
theorem doy_bounds {doe : Int} (h1 : 0 ≤ doe) (h2 : doe < 146097) :
    0 ≤ doyOfDoe doe ∧ doyOfDoe doe ≤ 365 := by
  unfold doyOfDoe doyStartOfYoe yoeOfDoe
  obtain ⟨e, he, hlo, hhi⟩ : ∃ e, doe / 1460 = e ∧ 0 ≤ e ∧ e ≤ 100 :=
    ⟨_, rfl, by omega, by omega⟩
  interval_cases e <;> first
  | omega
  | (obtain ⟨f, hf, hf0⟩ : ∃ f, doe / 36524 = f ∧ (f = 0 ∨ f = 1 ∨ f = 2 ∨ f = 3 ∨ f = 4) :=
      ⟨_, rfl, by omega⟩
     rcases hf0 with h | h | h | h | h <;> omega)

theorem mp_bounds {doe : Int} (h1 : 0 ≤ doe) (h2 : doe < 146097) :
    0 ≤ mpOfDoe doe ∧ mpOfDoe doe ≤ 11 := by
  have h := doy_bounds h1 h2
  unfold mpOfDoe; omega

theorem eraOfY_add (era yoe : Int) (h1 : 0 ≤ yoe) (h2 : yoe ≤ 399) :
    eraOfY (yoe + era * 400) = era := by
  unfold eraOfY; omega

theorem yoeOfY_add (era yoe : Int) (h1 : 0 ≤ yoe) (h2 : yoe ≤ 399) :
    yoeOfY (yoe + era * 400) = yoe := by
  unfold yoeOfY eraOfY; omega

theorem doyOfMD_lo (doy mp : Int) (h1 : 0 ≤ doy) (hmp : mp = (5 * doy + 2) / 153)
    (h2 : mp < 10) :
    doyOfMD (mp + 3) (doy - (153 * mp + 2) / 5 + 1) = doy := by
  unfold doyOfMD
  rw [if_pos (by omega : (2 : Int) < mp + 3)]
  omega

theorem doyOfMD_hi (doy mp : Int) (h1 : 0 ≤ doy) (h1' : doy ≤ 365)
    (hmp : mp = (5 * doy + 2) / 153) (h2 : ¬ mp < 10) :
    doyOfMD (mp - 9) (doy - (153 * mp + 2) / 5 + 1) = doy := by
  have hb : mp ≤ 11 := by omega
  unfold doyOfMD
  rw [if_neg (by omega : ¬ (2 : Int) < mp - 9)]
  omega

/-- The civil-date fields produced from a day number convert back to that
day number: `daysFromCivil` is a left inverse of the field extraction. -/
theorem daysFromCivil_jsFields (z : Int) :
    daysFromCivil (jsYear z) (jsMonth1 z) (jsDay z) = z := by
  have hdoe := doe_bounds z
  have hyoe := yoe_bounds hdoe.1 hdoe.2
  have hdoy := doy_bounds hdoe.1 hdoe.2
  have hmpdef : mpOfDoe (doeOf z) = (5 * doyOfDoe (doeOf z) + 2) / 153 := rfl
  have hday : jsDay z = doyOfDoe (doeOf z) - (153 * mpOfDoe (doeOf z) + 2) / 5 + 1 := rfl
  by_cases hc : mpOfDoe (doeOf z) < 10
  · have hM : jsMonth1 z = mpOfDoe (doeOf z) + 3 := by
      unfold jsMonth1 monthOfDoe; rw [if_pos hc]
    have hmle : ¬ monthOfDoe (doeOf z) ≤ 2 := by
      have := mp_bounds hdoe.1 hdoe.2
      unfold monthOfDoe; rw [if_pos hc]; omega
    have hY : jsYear z = yoeOfDoe (doeOf z) + eraOf z * 400 := by
      unfold jsYear; rw [if_neg hmle]; ring
    rw [hY, hM, hday]
    unfold daysFromCivil
    rw [show yShift (yoeOfDoe (doeOf z) + eraOf z * 400) (mpOfDoe (doeOf z) + 3)
          = yoeOfDoe (doeOf z) + eraOf z * 400 by
        unfold yShift
        rw [if_neg (by have := mp_bounds hdoe.1 hdoe.2; omega : ¬ mpOfDoe (doeOf z) + 3 ≤ 2)]
        ring]
    rw [eraOfY_add _ _ hyoe.1 hyoe.2, yoeOfY_add _ _ hyoe.1 hyoe.2,
      doyOfMD_lo _ _ hdoy.1 hmpdef hc]
    unfold doeOfYoeDoy doyOfDoe doyStartOfYoe doeOf eraOf
    omega
  · have hM : jsMonth1 z = mpOfDoe (doeOf z) - 9 := by
      unfold jsMonth1 monthOfDoe; rw [if_neg hc]
    have hmle : monthOfDoe (doeOf z) ≤ 2 := by
      have := mp_bounds hdoe.1 hdoe.2
      unfold monthOfDoe; rw [if_neg hc]; omega
    have hY : jsYear z = yoeOfDoe (doeOf z) + eraOf z * 400 + 1 := by
      unfold jsYear; rw [if_pos hmle]
    rw [hY, hM, hday]
    unfold daysFromCivil
    rw [show yShift (yoeOfDoe (doeOf z) + eraOf z * 400 + 1) (mpOfDoe (doeOf z) - 9)
          = yoeOfDoe (doeOf z) + eraOf z * 400 by
        unfold yShift; rw [if_pos (by omega : mpOfDoe (doeOf z) - 9 ≤ 2)]; ring]
    rw [eraOfY_add _ _ hyoe.1 hyoe.2, yoeOfY_add _ _ hyoe.1 hyoe.2,
      doyOfMD_hi _ _ hdoy.1 hdoy.2 hmpdef hc]
    unfold doeOfYoeDoy doyOfDoe doyStartOfYoe doeOf eraOf
    omega

/-- For a timestamp whose local year escapes the ECMAScript two-digit-year
remapping, rebuilding it from its local date fields via `Date.UTC` yields
midnight UTC of its local calendar day. -/
theorem jsDateUTCms_localDays (c : JSDate)
    (hc : ¬ (0 ≤ getFullYear c ∧ getFullYear c ≤ 99)) :
    jsDateUTCms (getFullYear c) (getMonth c) (getDate c) = localDays c * 86400000 := by
  unfold jsDateUTCms jsYearAdjust
  rw [if_neg hc]
  rw [show getMonth c + 1 = jsMonth1 (localDays c) by unfold getMonth; ring]
  unfold getFullYear getDate
  rw [daysFromCivil_jsFields]

/-- `diffInHours` computes 24 times the difference of the local calendar
day numbers of its two arguments (signed), for dates outside the
two-digit-year range. -/
theorem diffInHours_eq_localDays (a b : JSDate)
    (ha : ¬ (0 ≤ getFullYear a ∧ getFullYear a ≤ 99))
    (hb : ¬ (0 ≤ getFullYear b ∧ getFullYear b ≤ 99)) :
    diffInHours a b = (localDays a - localDays b) * 24 := by
  unfold diffInHours
  rw [jsDateUTCms_localDays a ha, jsDateUTCms_localDays b hb]
  omega

/-! ### Claim C1 -/

/-- Claim C1 (code-bug evaluation): with the nightly build installed, the
nightly channel desired, and a persisted release date four full calendar
days (96 hours) before the current time, the claim requires a user prompt,
but the orchestrator does nothing: `diffInHours` is called with the stale
release date as first argument and now as second, producing -96, which is
below the 25-hour threshold. -/
theorem C1_stale_nightly_never_prompts :
    diffInHours dateJan1 dateJan5 = -96 ∧
    ensureProperExtensionVersion baseEnv = ([], Outcome.ret) := by decide

/-! ### Claim C2 -/

/-- Claim C2 counterexample: two timestamps on the same UTC calendar date
(23 hours apart, in a UTC+14 locale) yield -24 rather than 0, and two
timestamps exactly one UTC calendar day apart (midnights, UTC locale,
earlier first) yield -24 rather than 24. -/
theorem C2_counterexample :
    (utcDayIndex dateJan1Plus14 = utcDayIndex dateJan1LatePlus14 ∧
      diffInHours dateJan1Plus14 dateJan1LatePlus14 ≠ 0) ∧
    (utcDayIndex dateJan2 = utcDayIndex dateJan1 + 1 ∧
      diffInHours dateJan1 dateJan2 ≠ 24) := by decide

/-- Claim C2 (amended): `diffInHours` is time-of-day independent but works
on the local calendar and is signed: for arguments whose local years avoid
the ECMAScript two-digit-year remapping, two timestamps on the same local
calendar date give 0, a first argument one local calendar day after the
second gives 24, and one local calendar day before gives -24. -/
theorem C2_local_calendar_signed (a b : JSDate)
    (ha : ¬ (0 ≤ getFullYear a ∧ getFullYear a ≤ 99))
    (hb : ¬ (0 ≤ getFullYear b ∧ getFullYear b ≤ 99)) :
    (localDays a = localDays b → diffInHours a b = 0) ∧
    (localDays a = localDays b + 1 → diffInHours a b = 24) ∧
    (localDays b = localDays a + 1 → diffInHours a b = -24) := by
  have h := diffInHours_eq_localDays a b ha hb
  refine ⟨fun he => ?_, fun he => ?_, fun he => ?_⟩ <;> rw [h, he] <;> ring

/-- Witness for the amended claim C2 at concrete dates. -/
theorem C2_local_calendar_signed_witness :
    diffInHours dateJan2 dateJan1 = 24 ∧ diffInHours dateJan1 dateJan1 = 0 := by
  constructor
  · exact (C2_local_calendar_signed dateJan2 dateJan1 (by decide) (by decide)).2.1 (by decide)
  · exact (C2_local_calendar_signed dateJan1 dateJan1 (by decide) (by decide)).1 rfl

/-! ### Claim C3: helper lemmas about digit runs and suffixes -/

theorem takeWhile_digits_dot (ds r : Str) (h : ds.all Char.isDigit = true) :
    (ds ++ '.' :: r).takeWhile Char.isDigit = ds := by
  rw [List.takeWhile_append_of_pos (List.all_eq_true.mp h)]
  rw [List.takeWhile_cons_of_neg (by decide)]
  exact List.append_nil ds

theorem dropWhile_digits_dot (ds r : Str) (h : ds.all Char.isDigit = true) :
    (ds ++ '.' :: r).dropWhile Char.isDigit = '.' :: r := by
  rw [List.dropWhile_append_of_pos (List.all_eq_true.mp h)]
  exact List.dropWhile_cons_of_neg (by decide)

theorem getLast?_append_of_ne_nil (pre l : Str) (h : l ≠ []) :
    (pre ++ l).getLast? = l.getLast? := by
  rw [List.getLast?_append]
  cases hl : l.getLast? with
  | none => exact absurd (List.getLast?_eq_none_iff.mp hl) h
  | some c => rfl

theorem nightly_not_suffix_of_digit_last (s : Str) (c : Char) (hc : c.isDigit = true)
    (hlast : s.getLast? = some c) : NIGHTLY_TAG.isSuffixOf s = false := by
  by_contra hne
  rw [Bool.not_eq_false] at hne
  obtain ⟨t, ht⟩ := List.isSuffixOf_iff_suffix.mp hne
  rw [← ht, getLast?_append_of_ne_nil t NIGHTLY_TAG (by decide),
    (by decide : NIGHTLY_TAG.getLast? = some 'y'), Option.some.injEq] at hlast
  rw [← hlast] at hc
  exact absurd hc (by decide)

theorem matchRealVersion_eq (n1 n2 y mo d : Str)
    (h1 : n1 ≠ []) (h2 : n2 ≠ [])
    (hd1 : n1.all Char.isDigit = true) (hd2 : n2.all Char.isDigit = true)
    (hy : y.length = 4) (hmo : mo.length = 2) (hd : d.length = 2)
    (hyd : y.all Char.isDigit = true) (hmod : mo.all Char.isDigit = true)
    (hdd : d.all Char.isDigit = true) :
    matchRealVersion (n1 ++ '.' :: (n2 ++ '.' :: (y ++ (mo ++ d)))) = some (y, mo, d) := by
  have htake8 : (y ++ (mo ++ d)).take 8 = y ++ (mo ++ d) :=
    List.take_of_length_le (by simp [hy, hmo, hd])
  have htake4 : (y ++ (mo ++ d)).take 4 = y := List.take_left' hy
  have hdrop4 : (y ++ (mo ++ d)).drop 4 = mo ++ d := List.drop_left' hy
  have hdrop6 : (y ++ (mo ++ d)).drop 6 = d := by
    rw [← List.append_assoc]
    exact List.drop_left' (by simp [hy, hmo])
  have hall : (y ++ (mo ++ d)).all Char.isDigit = true := by
    simp [List.all_append, hyd, hmod, hdd]
  unfold matchRealVersion
  rw [takeWhile_digits_dot _ _ hd1, dropWhile_digits_dot _ _ hd1, if_neg h1]
  simp only []
  rw [takeWhile_digits_dot _ _ hd2, dropWhile_digits_dot _ _ hd2]
  simp only [if_pos rfl, if_neg h2]
  rw [htake8]
  simp [htake4, hdrop4, hdrop6, hall, List.take_left' hmo,
    List.take_of_length_le (by omega : d.length ≤ 2), hy, hmo, hd]

/-- Claim C3: a version tag ending in the nightly marker derives the
Nightly channel (with release tag `nightly`); any tag of the shape
`N.N.YYYYMMDD` (nonempty digit runs, then a four-digit year, two-digit
month, two-digit day) derives the release tag `YYYY-MM-DD` and the Stable
channel. -/
theorem C3_channel_derivation :
    (∀ version : Str, NIGHTLY_TAG.isSuffixOf version = true →
        extensionReleaseTag version = some NIGHTLY_TAG ∧
        installedExtensionUpdateChannel NIGHTLY_TAG = UpdatesChannel.nightly) ∧
    (∀ n1 n2 y mo d : Str, n1 ≠ [] → n2 ≠ [] →
        n1.all Char.isDigit = true → n2.all Char.isDigit = true →
        y.length = 4 → mo.length = 2 → d.length = 2 →
        y.all Char.isDigit = true → mo.all Char.isDigit = true → d.all Char.isDigit = true →
        extensionReleaseTag (n1 ++ '.' :: (n2 ++ '.' :: (y ++ (mo ++ d))))
            = some (y ++ ('-' :: (mo ++ ('-' :: d)))) ∧
        installedExtensionUpdateChannel (y ++ ('-' :: (mo ++ ('-' :: d))))
            = UpdatesChannel.stable) := by
  constructor
  · intro version hsuf
    refine ⟨?_, by decide⟩
    unfold extensionReleaseTag
    rw [if_pos hsuf]
  · intro n1 n2 y mo d h1 h2 hd1 hd2 hy hmo hd hyd hmod hdd
    have hdne : d ≠ [] := by intro h0; rw [h0] at hd; simp at hd
    have hlast1 : (n1 ++ '.' :: (n2 ++ '.' :: (y ++ (mo ++ d)))).getLast? = d.getLast? := by
      rw [getLast?_append_of_ne_nil _ _ (by simp)]
      rw [← List.singleton_append, getLast?_append_of_ne_nil _ _ (by simp [hdne])]
      rw [getLast?_append_of_ne_nil _ _ (by simp)]
      rw [← List.singleton_append, getLast?_append_of_ne_nil _ _ (by simp [hdne])]
      rw [getLast?_append_of_ne_nil _ _ (by simp [hdne])]
      rw [getLast?_append_of_ne_nil _ _ hdne]
    have hcdigit : (d.getLast hdne).isDigit = true :=
      List.all_eq_true.mp hdd _ (List.getLast_mem hdne)
    have hsufv : NIGHTLY_TAG.isSuffixOf (n1 ++ '.' :: (n2 ++ '.' :: (y ++ (mo ++ d)))) = false :=
      nightly_not_suffix_of_digit_last _ _ hcdigit
        (hlast1.trans (List.getLast?_eq_getLast d hdne))
    constructor
    · unfold extensionReleaseTag
      rw [hsufv]
      simp only [Bool.false_eq_true, if_false]
      rw [matchRealVersion_eq n1 n2 y mo d h1 h2 hd1 hd2 hy hmo hd hyd hmod hdd]
    · unfold installedExtensionUpdateChannel
      rw [if_neg]
      intro heq
      have hlen := congrArg List.length heq
      have hnlen : NIGHTLY_TAG.length = 7 := by decide
      simp [List.length_append, hy, hmo, hd, hnlen] at hlen

/-- Witness for claim C3 at the concrete versions `0.1.20200309-nightly`
and `0.1.20200309`. -/
theorem C3_channel_derivation_witness :
    extensionReleaseTag (("0.1.20200309-nightly").data) = some NIGHTLY_TAG ∧
    extensionReleaseTag (("0.1.20200309").data) = some (("2020-03-09").data) := by
  constructor
  · exact (C3_channel_derivation.1 _ (by decide)).1
  · exact (C3_channel_derivation.2 (("0").data) (("1").data) (("2020").data) (("03").data)
      (("09").data) (by decide) (by decide) (by decide) (by decide) (by decide) (by decide)
      (by decide) (by decide) (by decide) (by decide)).1

/-- Claim C8: when the server source is an explicit user-supplied path, the
orchestrator returns immediately with no effects whatsoever, regardless of
the channel configuration. -/
theorem C8_explicit_path_no_action (env : Env) (p : Str)
    (h : serverSource env = some (ArtifactSource.explicitPath p)) :
    ensureProperExtensionVersion env = ([], Outcome.ret) := by
  unfold ensureProperExtensionVersion
  rw [h]

/-- Claim C9: a second invocation of the guarded fetch+install procedure
while one is in flight produces no effects and returns (spec-modelled
`notReentrant` wrapper; `util.ts` is not among the reviewed sources). -/
theorem C9_reentrant_invocation_rejected (env : Env)
    (guard : ArtifactReleaseInfo → List Effect × Except Unit Bool)
    (h : env.inFlight = true) :
    tryDownloadNightlyExtension env guard = ([], Outcome.ret) := by
  unfold tryDownloadNightlyExtension notReentrant
  rw [h]
  simp

/-- Claim C7: with a non-explicit server source, both channels Nightly and
no persisted release date, the orchestrator shows exactly one error
notification and throws; no fetch, no install and no restart occur. -/
theorem C7_missing_release_date_fatal (env : Env)
    (h0 : isExplicitPathSource (serverSource env) = false)
    (h1 : installedExtensionUpdateChannel env.extensionReleaseTag = UpdatesChannel.nightly)
    (h2 : env.updatesChannel = UpdatesChannel.nightly)
    (h3 : env.installedNightlyExtensionReleaseDate = none) :
    ensureProperExtensionVersion env
      = ([Effect.showError nightlyDateMissingMsg], Outcome.threw) := by
  unfold ensureProperExtensionVersion
  cases hs : serverSource env with
  | some src =>
    cases src with
    | explicitPath p => rw [hs] at h0; simp [isExplicitPathSource] at h0
    | githubRelease g => simp [ensureProperExtensionVersionBody, h1, h2, h3]
  | none => simp [ensureProperExtensionVersionBody, h1, h2, h3]

/-- Claim C4: with a non-explicit server source and the Stable channel
currently installed, the very first effect of every run is clearing
PersistedReleaseDate, whatever the desired channel. -/
theorem C4_stable_current_clears_date_first (env : Env)
    (h0 : isExplicitPathSource (serverSource env) = false)
    (h1 : installedExtensionUpdateChannel env.extensionReleaseTag = UpdatesChannel.stable) :
    (ensureProperExtensionVersion env).1.head? = some (Effect.setReleaseDate none) := by
  have hbody : (ensureProperExtensionVersionBody env).1.head?
      = some (Effect.setReleaseDate none) := by
    unfold ensureProperExtensionVersionBody
    cases hdes : env.updatesChannel with
    | stable => simp [h1]
    | nightly =>
      rcases hask : askToDownloadProperExtensionVersion env [] with ⟨ae, b⟩
      cases b with
      | false => simp [h1, hask]
      | true =>
        rcases htd : tryDownloadNightlyExtension env defaultShouldDownload with ⟨dlE, oc⟩
        simp [h1, hask, htd]
  unfold ensureProperExtensionVersion
  cases hs : serverSource env with
  | some src =>
    cases src with
    | explicitPath p => rw [hs] at h0; simp [isExplicitPathSource] at h0
    | githubRelease g => exact hbody
  | none => exact hbody

theorem tryBlock_raised_no_reload (env : Env)
    (guard : ArtifactReleaseInfo → List Effect × Except Unit Bool)
    (hg : ∀ info, Effect.reloadWindow ∉ (guard info).1)
    (hr : (tryBlock env guard).2 = TryResult.raised) :
    Effect.reloadWindow ∉ (tryBlock env guard).1 := by
  unfold tryBlock at hr ⊢
  cases hf : env.fetchResult with
  | error e => simp
  | ok info =>
    rw [hf] at hr
    simp only [] at hr ⊢
    rcases hgi : guard info with ⟨ge, gr⟩
    rw [hgi] at hr
    have hge : Effect.reloadWindow ∉ ge := by
      have h := hg info; rw [hgi] at h; exact h
    cases gr with
    | error e1 => simp [hge]
    | ok b =>
      cases b with
      | false => simp at hr
      | true =>
        cases hdl : env.downloadResult with
        | error e2 => simp [hge]
        | ok u1 =>
          rw [hdl] at hr
          cases hins : env.installResult with
          | error e3 => simp [hge]
          | ok u2 =>
            rw [hins] at hr
            cases hset : env.setDateResult with
            | error e4 => simp [hge]
            | ok u3 =>
              rw [hset] at hr
              cases hunl : env.unlinkResult with
              | error e5 => simp [hge]
              | ok u4 =>
                rw [hunl] at hr
                simp at hr

/-- Claim C5: whenever the try block of the fetch+install nightly procedure
raises (fetch, guard, download, install, date write, or file deletion),
the exception is caught at the procedure boundary: the run returns
normally (never the `threw` outcome), the trace ends with a download-error
log naming the artifact and repository, and no window reload occurs. -/
theorem C5_download_errors_caught (env : Env)
    (guard : ArtifactReleaseInfo → List Effect × Except Unit Bool)
    (hin : env.inFlight = false)
    (hg : ∀ info, Effect.reloadWindow ∉ (guard info).1)
    (hr : (tryBlock env guard).2 = TryResult.raised) :
    tryDownloadNightlyExtension env guard
      = ((tryBlock env guard).1
          ++ [Effect.logDownloadError (("nightly extension").data) (("rust-analyzer").data)],
         Outcome.ret)
    ∧ Effect.reloadWindow ∉ (tryDownloadNightlyExtension env guard).1 := by
  have h1 : tryDownloadNightlyExtension env guard
      = ((tryBlock env guard).1
          ++ [Effect.logDownloadError (("nightly extension").data) (("rust-analyzer").data)],
         Outcome.ret) := by
    unfold tryDownloadNightlyExtension notReentrant
    rw [hin]
    simp only [Bool.false_eq_true, if_false]
    rcases htb : tryBlock env guard with ⟨tr, r⟩
    rw [htb] at hr
    simp only [] at hr
    subst hr
    simp [nightlyVsixSource, createGithubReleaseSource]
  refine ⟨h1, ?_⟩
  rw [h1]
  simp only [List.mem_append]
  rintro (hmem | hmem)
  · exact tryBlock_raised_no_reload env guard hg hr hmem
  · simp at hmem

/-- Claim C6: on the Nightly-to-Nightly staleness path with the prompt
accepted, when the fetched release date equals the persisted one the guard
aborts the procedure: the complete trace is prompt, fetch, informational
message, with a normal return, hence no download, no install, no write to
PersistedReleaseDate and no restart. -/
theorem C6_equal_release_date_aborts (env : Env) (d d2 : JSDate) (info : ArtifactReleaseInfo)
    (h0 : isExplicitPathSource (serverSource env) = false)
    (h1 : installedExtensionUpdateChannel env.extensionReleaseTag = UpdatesChannel.nightly)
    (h2 : env.updatesChannel = UpdatesChannel.nightly)
    (h3 : env.installedNightlyExtensionReleaseDate = some d)
    (h4 : ¬ diffInHours d env.now < HEURISTIC_NIGHTLY_RELEASE_PERIOD_IN_HOURS)
    (h5 : env.askBeforeDownload = true)
    (h6 : env.userAcceptsDownload = true)
    (h7 : env.inFlight = false)
    (h8 : env.fetchResult = Except.ok info)
    (h9 : getTime info.releaseDate = getTime d)
    (h10 : env.rereadNightlyExtensionReleaseDate = some d2)
    (h11 : getTime d = getTime d2) :
    ensureProperExtensionVersion env
      = ([Effect.infoPrompt outdatedReason (("latest nightly").data),
          Effect.fetchReleaseInfo (("rust-analyzer").data) (("rust-analyzer.vsix").data)
            NIGHTLY_TAG,
          Effect.showInfo nightlyUpToDateMsg], Outcome.ret) := by
  have hguard : stalenessShouldDownload d env info
      = ([Effect.showInfo nightlyUpToDateMsg], Except.ok false) := by
    unfold stalenessShouldDownload
    rw [h10]
    simp only []
    rw [if_pos h11, if_pos h9]
  have htb : tryBlock env (stalenessShouldDownload d env)
      = ([Effect.fetchReleaseInfo (("rust-analyzer").data) (("rust-analyzer.vsix").data)
            NIGHTLY_TAG,
          Effect.showInfo nightlyUpToDateMsg], TryResult.finished) := by
    unfold tryBlock
    rw [h8]
    simp only []
    rw [hguard]
    simp [nightlyVsixSource, createGithubReleaseSource]
  have htd : tryDownloadNightlyExtension env (stalenessShouldDownload d env)
      = ([Effect.fetchReleaseInfo (("rust-analyzer").data) (("rust-analyzer.vsix").data)
            NIGHTLY_TAG,
          Effect.showInfo nightlyUpToDateMsg], Outcome.ret) := by
    unfold tryDownloadNightlyExtension notReentrant
    rw [h7, htb]
    simp
  have hask : askToDownloadProperExtensionVersion env outdatedReason
      = ([Effect.infoPrompt outdatedReason (("latest nightly").data)], true) := by
    unfold askToDownloadProperExtensionVersion
    rw [h5, h2, h6]
    simp
  have hbody : ensureProperExtensionVersionBody env
      = ([Effect.infoPrompt outdatedReason (("latest nightly").data),
          Effect.fetchReleaseInfo (("rust-analyzer").data) (("rust-analyzer.vsix").data)
            NIGHTLY_TAG,
          Effect.showInfo nightlyUpToDateMsg], Outcome.ret) := by
    unfold ensureProperExtensionVersionBody
    rw [h1, h2, h3]
    simp [h4, hask, htd]
  unfold ensureProperExtensionVersion
  cases hs : serverSource env with
  | some src =>
    cases src with
    | explicitPath p => rw [hs] at h0; simp [isExplicitPathSource] at h0
    | githubRelease g => exact hbody
  | none => exact hbody

theorem stalenessShouldDownload_no_prompt (d : JSDate) (env : Env) (i : ArtifactReleaseInfo) :
    ∀ e ∈ (stalenessShouldDownload d env i).1, isInfoPrompt e = false := by
  unfold stalenessShouldDownload
  cases env.rereadNightlyExtensionReleaseDate with
  | none => simp
  | some r =>
    intro e he
    simp only [] at he
    by_cases h1 : getTime d = getTime r
    · rw [if_pos h1] at he
      by_cases h2 : getTime i.releaseDate = getTime d
      · rw [if_pos h2] at he
        simp at he
        subst he
        rfl
      · rw [if_neg h2] at he
        simp at he
    · rw [if_neg h1] at he
      simp at he

theorem defaultShouldDownload_no_prompt (i : ArtifactReleaseInfo) :
    ∀ e ∈ (defaultShouldDownload i).1, isInfoPrompt e = false := by
  simp [defaultShouldDownload]

theorem tryBlock_no_prompt (env : Env)
    (guard : ArtifactReleaseInfo → List Effect × Except Unit Bool)
    (hg : ∀ i, ∀ e ∈ (guard i).1, isInfoPrompt e = false) :
    ∀ e ∈ (tryBlock env guard).1, isInfoPrompt e = false := by
  unfold tryBlock
  cases hf : env.fetchResult with
  | error e => intro e he; fin_cases he <;> rfl
  | ok info =>
    simp only []
    rcases hgi : guard info with ⟨ge, gr⟩
    have hge : ∀ e ∈ ge, isInfoPrompt e = false := by
      have h := hg info; rw [hgi] at h; exact h
    cases gr with
    | error e1 =>
      intro e he
      rcases List.mem_cons.mp he with rfl | h2
      · rfl
      · exact hge e h2
    | ok b =>
      cases b with
      | false =>
        intro e he
        rcases List.mem_cons.mp he with rfl | h2
        · rfl
        · exact hge e h2
      | true =>
        cases env.downloadResult with
        | error e2 =>
          intro e he
          rcases List.mem_append.mp he with h1 | h1
          · rcases List.mem_cons.mp h1 with rfl | h2
            · rfl
            · exact hge e h2
          · fin_cases h1 <;> rfl
        | ok u1 =>
          cases env.installResult with
          | error e3 =>
            intro e he
            rcases List.mem_append.mp he with h1 | h1
            · rcases List.mem_cons.mp h1 with rfl | h2
              · rfl
              · exact hge e h2
            · fin_cases h1 <;> rfl
          | ok u2 =>
            cases env.setDateResult with
            | error e4 =>
              intro e he
              rcases List.mem_append.mp he with h1 | h1
              · rcases List.mem_cons.mp h1 with rfl | h2
                · rfl
                · exact hge e h2
              · fin_cases h1 <;> rfl
            | ok u3 =>
              cases env.unlinkResult with
              | error e5 =>
                intro e he
                rcases List.mem_append.mp he with h1 | h1
                · rcases List.mem_cons.mp h1 with rfl | h2
                  · rfl
                  · exact hge e h2
                · fin_cases h1 <;> rfl
              | ok u4 =>
                intro e he
                rcases List.mem_append.mp he with h1 | h1
                · rcases List.mem_cons.mp h1 with rfl | h2
                  · rfl
                  · exact hge e h2
                · fin_cases h1 <;> rfl

theorem tryDownload_no_prompt (env : Env)
    (guard : ArtifactReleaseInfo → List Effect × Except Unit Bool)
    (hg : ∀ i, ∀ e ∈ (guard i).1, isInfoPrompt e = false) :
    ∀ e ∈ (tryDownloadNightlyExtension env guard).1, isInfoPrompt e = false := by
  unfold tryDownloadNightlyExtension notReentrant
  cases hin : env.inFlight with
  | true => simp
  | false =>
    simp only [Bool.false_eq_true, if_false]
    rcases htb : tryBlock env guard with ⟨tr, r⟩
    have htr : ∀ e ∈ tr, isInfoPrompt e = false := by
      have h := tryBlock_no_prompt env guard hg; rw [htb] at h; exact h
    cases r with
    | finished => exact htr
    | restartedT => exact htr
    | raised =>
      intro e he
      rcases List.mem_append.mp he with h1 | h1
      · exact htr e h1
      · fin_cases h1 <;> rfl

theorem filter_no_prompt_eq (l : List Effect) (h : ∀ e ∈ l, isInfoPrompt e = false) :
    l.filter (fun e => !(isInfoPrompt e)) = l :=
  List.filter_eq_self.mpr (fun a ha => by rw [h a ha]; rfl)

theorem ensureBody_no_ask (env : Env) (h : env.askBeforeDownload = false) :
    ensureProperExtensionVersionBody env
      = (((ensureProperExtensionVersionBody
            { env with askBeforeDownload := true, userAcceptsDownload := true }).1).filter
            (fun e => !(isInfoPrompt e)),
         (ensureProperExtensionVersionBody
            { env with askBeforeDownload := true, userAcceptsDownload := true }).2) := by
  have haskL : ∀ reason, askToDownloadProperExtensionVersion env reason = ([], true) := by
    intro reason
    unfold askToDownloadProperExtensionVersion
    rw [h]
    simp
  have haskT : ∀ reason,
      askToDownloadProperExtensionVersion
          { env with askBeforeDownload := true, userAcceptsDownload := true } reason
        = ([Effect.infoPrompt reason
              (match env.updatesChannel with
               | UpdatesChannel.stable => ("stable").data
               | UpdatesChannel.nightly => ("latest nightly").data)], true) := fun _ => rfl
  have htdT : ∀ g, tryDownloadNightlyExtension
        { env with askBeforeDownload := true, userAcceptsDownload := true } g
      = tryDownloadNightlyExtension env g := fun _ => rfl
  have hstaleT : ∀ d, stalenessShouldDownload d
        { env with askBeforeDownload := true, userAcceptsDownload := true }
      = stalenessShouldDownload d env := fun _ => rfl
  simp only [ensureProperExtensionVersionBody]
  dsimp only
  simp only [haskL, haskT, htdT, hstaleT]
  cases hcur : installedExtensionUpdateChannel env.extensionReleaseTag with
  | stable =>
    cases hupdc : env.updatesChannel with
    | stable => simp [isInfoPrompt, List.filter_cons]
    | nightly =>
      rcases htd0 : tryDownloadNightlyExtension env defaultShouldDownload with ⟨dl, oc⟩
      have hfil : dl.filter (fun e => !(isInfoPrompt e)) = dl := by
        apply filter_no_prompt_eq
        have hnp := tryDownload_no_prompt env defaultShouldDownload
          (fun i => defaultShouldDownload_no_prompt i)
        rw [htd0] at hnp
        exact hnp
      simp [htd0, isInfoPrompt, List.filter_cons, List.filter_append, hfil]
      exact hfil.symm
  | nightly =>
    cases hupdc : env.updatesChannel with
    | stable => simp [isInfoPrompt, List.filter_cons]
    | nightly =>
      cases hdat : env.installedNightlyExtensionReleaseDate with
      | none => simp [isInfoPrompt, List.filter_cons]
      | some dd =>
        by_cases hdiff : diffInHours dd env.now < HEURISTIC_NIGHTLY_RELEASE_PERIOD_IN_HOURS
        · simp [hdiff, isInfoPrompt]
        · rcases htd1 : tryDownloadNightlyExtension env (stalenessShouldDownload dd env)
            with ⟨dl, oc⟩
          have hfil : dl.filter (fun e => !(isInfoPrompt e)) = dl := by
            apply filter_no_prompt_eq
            have hnp := tryDownload_no_prompt env (stalenessShouldDownload dd env)
              (fun i => stalenessShouldDownload_no_prompt dd env i)
            rw [htd1] at hnp
            exact hnp
          simp [hdiff, htd1, isInfoPrompt, List.filter_cons, List.filter_append, hfil]
          exact hfil.symm

/-- Claim C10: with `updates.askBeforeDownload` disabled, a run produces no
prompt and otherwise behaves exactly like a run with the option enabled
and the prompt accepted: same outcome, and the same effects with the
prompts filtered out. -/
theorem C10_no_ask_proceeds_as_accepted (env : Env) (h : env.askBeforeDownload = false) :
    ensureProperExtensionVersion env
      = (((ensureProperExtensionVersion
            { env with askBeforeDownload := true, userAcceptsDownload := true }).1).filter
            (fun e => !(isInfoPrompt e)),
         (ensureProperExtensionVersion
            { env with askBeforeDownload := true, userAcceptsDownload := true }).2) := by
  have hsrc : serverSource { env with askBeforeDownload := true, userAcceptsDownload := true }
      = serverSource env := rfl
  unfold ensureProperExtensionVersion
  rw [hsrc]
  cases hs : serverSource env with
  | some src =>
    cases src with
    | explicitPath p => simp
    | githubRelease g => exact ensureBody_no_ask env h
  | none => exact ensureBody_no_ask env h


/-- Witness for claim C8: a configured explicit server path (with tilde
expansion) suppresses all update management. -/
theorem C8_explicit_path_no_action_witness :
    ensureProperExtensionVersion { baseEnv with serverPath := some (("~/ra/server").data) }
      = ([], Outcome.ret) :=
  C8_explicit_path_no_action { baseEnv with serverPath := some (("~/ra/server").data) }
    (("/home/user/ra/server").data) (by decide)

/-- Witness for claim C9 at a concrete in-flight environment. -/
theorem C9_reentrant_invocation_rejected_witness :
    tryDownloadNightlyExtension { baseEnv with inFlight := true } defaultShouldDownload
      = ([], Outcome.ret) :=
  C9_reentrant_invocation_rejected { baseEnv with inFlight := true } defaultShouldDownload
    (by decide)

/-- Witness for claim C7 at a concrete environment with no persisted date. -/
theorem C7_missing_release_date_fatal_witness :
    ensureProperExtensionVersion { baseEnv with installedNightlyExtensionReleaseDate := none }
      = ([Effect.showError nightlyDateMissingMsg], Outcome.threw) :=
  C7_missing_release_date_fatal { baseEnv with installedNightlyExtensionReleaseDate := none }
    (by decide) (by decide) (by decide) (by decide)

/-- Witness for claim C4 at a concrete environment with a stable build
installed and the nightly channel desired. -/
theorem C4_stable_current_clears_date_first_witness :
    (ensureProperExtensionVersion
        { baseEnv with extensionReleaseTag := ("2020-03-09").data }).1.head?
      = some (Effect.setReleaseDate none) :=
  C4_stable_current_clears_date_first { baseEnv with extensionReleaseTag := ("2020-03-09").data }
    (by decide) (by decide)

/-- Witness for claim C5: a failing release-info fetch is logged and the
procedure returns normally. -/
theorem C5_download_errors_caught_witness :
    tryDownloadNightlyExtension { baseEnv with fetchResult := Except.error () }
        defaultShouldDownload
      = ([Effect.fetchReleaseInfo (("rust-analyzer").data) (("rust-analyzer.vsix").data)
            NIGHTLY_TAG,
          Effect.logDownloadError (("nightly extension").data) (("rust-analyzer").data)],
         Outcome.ret) := by
  have h := C5_download_errors_caught { baseEnv with fetchResult := Except.error () }
    defaultShouldDownload (by decide) (fun info => by simp [defaultShouldDownload]) (by decide)
  rw [h.1]
  decide

/-- Witness for claim C6 at a concrete environment (the staleness path is
reachable only with a future-dated persisted nightly, because of the
argument-order defect recorded at claim C1). -/
theorem C6_equal_release_date_aborts_witness :
    ensureProperExtensionVersion
        { baseEnv with
            installedNightlyExtensionReleaseDate := some dateJan3
            rereadNightlyExtensionReleaseDate := some dateJan3
            now := dateJan1
            fetchResult := Except.ok { releaseDate := dateJan3 } }
      = ([Effect.infoPrompt outdatedReason (("latest nightly").data),
          Effect.fetchReleaseInfo (("rust-analyzer").data) (("rust-analyzer.vsix").data)
            NIGHTLY_TAG,
          Effect.showInfo nightlyUpToDateMsg], Outcome.ret) :=
  C6_equal_release_date_aborts
    { baseEnv with
        installedNightlyExtensionReleaseDate := some dateJan3
        rereadNightlyExtensionReleaseDate := some dateJan3
        now := dateJan1
        fetchResult := Except.ok { releaseDate := dateJan3 } }
    dateJan3 dateJan3 { releaseDate := dateJan3 }
    (by decide) (by decide) (by decide) (by decide) (by decide) (by decide) (by decide)
    (by decide) (by decide) (by decide) (by decide) (by decide)

/-- Witness for claim C10 at a concrete environment with the prompt
disabled. -/
theorem C10_no_ask_proceeds_as_accepted_witness :
    ensureProperExtensionVersion { baseEnv with askBeforeDownload := false }
      = (((ensureProperExtensionVersion
            { { baseEnv with askBeforeDownload := false } with
                askBeforeDownload := true, userAcceptsDownload := true }).1).filter
            (fun e => !(isInfoPrompt e)),
         (ensureProperExtensionVersion
            { { baseEnv with askBeforeDownload := false } with
                askBeforeDownload := true, userAcceptsDownload := true }).2) :=
  C10_no_ask_proceeds_as_accepted { baseEnv with askBeforeDownload := false } (by decide)
